import Mathlib

/-!
Shallow embedding of the Mindways Model 3 CT phantom calibration pipeline
(`mindways_model3_phantom_calibration.py` driving `ogo_helper.py`).

Machine floating-point arithmetic is modelled by exact rational arithmetic;
voxel grids are modelled as a dimension triple plus a flat list of voxel
values (VTK images store their scalars as a flat array in C order).
-/

namespace Ogo

/-- Ordinary least squares as computed by `scipy.stats.linregress(x, y)`:
slope `= Sxy / Sxx` and intercept `= ybar - slope * xbar`, where the means
are `sum / length`.  Returns `(slope, intercept)`, matching the use of
`linregress(...)[0]` and `linregress(...)[1]` in `ogo_helper.py`. -/
def linregress (x y : List ℚ) : ℚ × ℚ :=
  let n : ℚ := x.length
  let xbar := x.sum / n
  let ybar := y.sum / n
  let sxx := (x.map (fun xi => (xi - xbar) ^ 2)).sum
  let sxy := ((x.zip y).map (fun p => (p.1 - xbar) * (p.2 - ybar))).sum
  let slope := sxy / sxx
  (slope, ybar - slope * xbar)

/-- The dictionary returned by `ogo_helper.phantomParameters`, with one field
per key of the returned Python dict. -/
structure CalibrationFit where
  yValues : List ℚ
  xValues : List ℚ
  regressionSlope : ℚ
  regressionYint : ℚ
  sigmaCT : ℚ
  betaCT : ℚ
  calibrationSlope : ℚ
  calibrationYint : ℚ
  deriving DecidableEq

/-- `ogo_helper.phantomParameters` (lines 1088-1115): `y = np.subtract(HU, h2o)`
elementwise, `x = k2hpo4`, OLS regression, then the fixed offsets
`sigma_ct = slope - 0.2174`, `beta_ct = intercept + 999.6`, and the final
coefficients `1/sigma_ct` and `-(beta_ct/sigma_ct)`. -/
def phantomParameters (h2o_density k2hpo4_density phantom_HU : List ℚ) :
    CalibrationFit :=
  let y_values := (phantom_HU.zip h2o_density).map (fun p => p.1 - p.2)
  let x_values := k2hpo4_density
  let regression := linregress x_values y_values
  let sigma_ct := regression.1 - 0.2174
  let beta_ct := regression.2 + 999.6
  { yValues := y_values
    xValues := x_values
    regressionSlope := regression.1
    regressionYint := regression.2
    sigmaCT := sigma_ct
    betaCT := beta_ct
    calibrationSlope := 1 / sigma_ct
    calibrationYint := -(beta_ct / sigma_ct) }

/-- A voxel grid: dimensions plus the flat scalar array. -/
structure Image where
  dims : ℕ × ℕ × ℕ
  data : List ℚ
  deriving DecidableEq

/-- `ogo_helper.applyPhantomParameters` (lines 141-164): cast to float, then
`vtkImageMathematics` MultiplyByK with the calibration slope, then
AddConstant with the calibration intercept; the geometry is untouched. -/
def applyPhantomParameters (vtk_image : Image) (p : CalibrationFit) : Image :=
  { dims := vtk_image.dims
    data := vtk_image.data.map
      (fun v => p.calibrationSlope * v + p.calibrationYint) }

/-- `ogo_helper.maskThreshold` (lines 984-998): `vtkImageThreshold` with
`ThresholdBetween(t, t)` (in range iff `t ≤ v ∧ v ≤ t`), in value 1,
out value 0, output cast to unsigned char. -/
def maskThreshold (imageData : Image) (threshold_value : ℚ) : Image :=
  { dims := imageData.dims
    data := imageData.data.map
      (fun v => if threshold_value ≤ v ∧ v ≤ threshold_value then 1 else 0) }

/-- `ogo_helper.applyMask` (lines 128-139): `vtkImageMask` with masked output
value 0 and `NotMaskOff` (no inversion): a voxel keeps the image value where
the mask voxel is nonzero and becomes 0 where the mask voxel is zero. -/
def applyMask (imageData maskData : Image) : Image :=
  { dims := imageData.dims
    data := (imageData.data.zip maskData.data).map
      (fun p => if p.2 ≠ 0 then p.1 else 0) }

/-- `ogo_helper.imageHistogramMean` (lines 847-857): `vtkImageAccumulate`
with `IgnoreZeroOn`, so the mean is taken over the voxels whose value is
nonzero. -/
def imageHistogramMean (imageData : Image) : ℚ :=
  let nz := imageData.data.filter (fun v => v ≠ 0)
  nz.sum / nz.length

/-- How the driver script reads an input. -/
inductive InputKind where
  | dicom : InputKind
  | nifti : InputKind
  deriving DecidableEq

/-- The input-format dispatch of `mindways_model3_phantom_calibration.py`
(lines 72-101, identical for image and mask): a directory is read as DICOM;
otherwise the extension from `os.path.splitext` must be `.nii` or `.nifti`,
else the script prints `ERROR: image format not recognized for <path>` and
exits via `sys.exit()`.  `isDir` stands for `os.path.isdir(path)` and `ext`
for `os.path.splitext(path)[1]`, both computed by the OS layer. -/
def classifyInput (isDir : Bool) (path ext : String) : Except String InputKind :=
  if isDir then .ok .dicom
  else if ext = ".nii" ∨ ext = ".nifti" then .ok .nifti
  else .error ("ERROR: image format not recognized for " ++ path)

/-- The rod extraction of the driver script (lines 105-130): for rod labels
1..5 in order (rod A .. rod E), threshold the mask at the label, mask the
image, and take the ignore-zero histogram mean; `phantom_HU` is the list of
the five means. -/
def phantomHU (imageData maskData : Image) : List ℚ :=
  (List.range 5).map (fun i =>
    imageHistogramMean (applyMask imageData (maskThreshold maskData (i + 1))))

/-- The calibration run of the driver script after argument parsing: read the
image, read the mask (either failing fatally on an unrecognized format),
extract the five rod means, fit the calibration, and apply it to the image
(lines 72-140).  Returns the fit and the calibrated image. -/
def runCalibration (imgIsDir : Bool) (imgPath imgExt : String)
    (maskIsDir : Bool) (maskPath maskExt : String)
    (imageData maskData : Image) (h2o k2hpo4 : List ℚ) :
    Except String (CalibrationFit × Image) := do
  let _ ← classifyInput imgIsDir imgPath imgExt
  let _ ← classifyInput maskIsDir maskPath maskExt
  let hu := phantomHU imageData maskData
  let p := phantomParameters h2o k2hpo4 hu
  .ok (p, applyPhantomParameters imageData p)

/-- The `nargs = 5` contract of the two density options of the argument
parser (driver lines 47-52): `argparse` accepts exactly five values for
`--phantom_h2o_densities` and `--phantom_k2hpo4_densities` and aborts the
run with a usage error otherwise. -/
def parseNargs5 (xs : List ℚ) : Except String (List ℚ) :=
  if xs.length = 5 then .ok xs
  else .error ("error: expected 5 arguments")

/-- The whole script: parse the two density option lists (each must have
exactly five values), then run the calibration pipeline. -/
def runScript (imgIsDir : Bool) (imgPath imgExt : String)
    (maskIsDir : Bool) (maskPath maskExt : String)
    (imageData maskData : Image) (h2o k2hpo4 : List ℚ) :
    Except String (CalibrationFit × Image) := do
  let h ← parseNargs5 h2o
  let k ← parseNargs5 k2hpo4
  runCalibration imgIsDir imgPath imgExt maskIsDir maskPath maskExt
    imageData maskData h k

/-- Spec-side characterization of the regression, written from the words of
the spec rather than from the code: `(a, b)` is an ordinary-least-squares
fit of `y` against `x` when it minimizes the residual sum of squares among
all affine models.  Compared against the `linregress` formula inside
`phantomParameters` by the refinement theorem for claim C1. -/
def IsOLSFit (x y : List ℚ) (a b : ℚ) : Prop :=
  ∀ a2 b2 : ℚ,
    ((x.zip y).map (fun p => (p.2 - (a * p.1 + b)) ^ 2)).sum ≤
    ((x.zip y).map (fun p => (p.2 - (a2 * p.1 + b2)) ^ 2)).sum

/-- A concrete calibration record used to instantiate universally
quantified theorems at a specific input. -/
def sampleFit : CalibrationFit :=
  { yValues := []
    xValues := []
    regressionSlope := 0
    regressionYint := 0
    sigmaCT := 0
    betaCT := 0
    calibrationSlope := 2
    calibrationYint := 3 }

/-- Masking an image with a thresholded label mask keeps exactly the voxels
whose mask label equals the threshold value and zeroes the rest. -/
lemma applyMask_maskThreshold_data (img mask : Image) (L : ℚ) :
    (applyMask img (maskThreshold mask L)).data =
      (img.data.zip mask.data).map (fun p => if p.2 = L then p.1 else 0) := by
  simp only [applyMask, maskThreshold, List.zip_map_right, List.map_map]
  apply List.map_congr_left
  intro p _
  by_cases h : p.2 = L
  · simp [Prod.map, h]
  · have hcond : ¬(L ≤ p.2 ∧ p.2 ≤ L) := fun hc => h (le_antisymm hc.2 hc.1)
    simp [Prod.map, h, hcond]

/-- The nonzero voxels of a label-masked image are exactly the image values
at voxels carrying the label whose value is nonzero, in order. -/
lemma filter_mask_map (L : ℚ) (l : List (ℚ × ℚ)) :
    (l.map (fun p => if p.2 = L then p.1 else 0)).filter (fun v => v ≠ 0) =
      (l.filter (fun p => p.2 = L ∧ p.1 ≠ 0)).map Prod.fst := by
  induction l with
  | nil => simp
  | cons a t ih =>
    by_cases h2 : a.2 = L <;> by_cases h1 : a.1 = 0 <;>
      simpa [List.filter_cons, h2, h1] using ih

/-- The five rod means of the driver script, unfolded label by label. -/
lemma phantomHU_eq (img mask : Image) :
    phantomHU img mask =
      [imageHistogramMean (applyMask img (maskThreshold mask 1)),
       imageHistogramMean (applyMask img (maskThreshold mask 2)),
       imageHistogramMean (applyMask img (maskThreshold mask 3)),
       imageHistogramMean (applyMask img (maskThreshold mask 4)),
       imageHistogramMean (applyMask img (maskThreshold mask 5))] := by
  simp [phantomHU, List.range_succ]
  norm_num

/-- With the intercept at its closed form, the residuals of the regression
line sum to zero (first normal equation). -/
lemma normal_eq_one (X1 X2 X3 X4 X5 Y1 Y2 Y3 Y4 Y5 A : ℚ) :
    (Y1 - (A * X1 + ((Y1 + Y2 + Y3 + Y4 + Y5) / 5 -
      A * ((X1 + X2 + X3 + X4 + X5) / 5)))) +
    (Y2 - (A * X2 + ((Y1 + Y2 + Y3 + Y4 + Y5) / 5 -
      A * ((X1 + X2 + X3 + X4 + X5) / 5)))) +
    (Y3 - (A * X3 + ((Y1 + Y2 + Y3 + Y4 + Y5) / 5 -
      A * ((X1 + X2 + X3 + X4 + X5) / 5)))) +
    (Y4 - (A * X4 + ((Y1 + Y2 + Y3 + Y4 + Y5) / 5 -
      A * ((X1 + X2 + X3 + X4 + X5) / 5)))) +
    (Y5 - (A * X5 + ((Y1 + Y2 + Y3 + Y4 + Y5) / 5 -
      A * ((X1 + X2 + X3 + X4 + X5) / 5)))) = 0 := by
  ring

/-- With the intercept at its closed form, the x-weighted residual sum equals
`Sxy - A * Sxx` (second normal equation, before substituting the slope). -/
lemma normal_eq_two (X1 X2 X3 X4 X5 Y1 Y2 Y3 Y4 Y5 A : ℚ) :
    X1 * (Y1 - (A * X1 + ((Y1 + Y2 + Y3 + Y4 + Y5) / 5 -
      A * ((X1 + X2 + X3 + X4 + X5) / 5)))) +
    X2 * (Y2 - (A * X2 + ((Y1 + Y2 + Y3 + Y4 + Y5) / 5 -
      A * ((X1 + X2 + X3 + X4 + X5) / 5)))) +
    X3 * (Y3 - (A * X3 + ((Y1 + Y2 + Y3 + Y4 + Y5) / 5 -
      A * ((X1 + X2 + X3 + X4 + X5) / 5)))) +
    X4 * (Y4 - (A * X4 + ((Y1 + Y2 + Y3 + Y4 + Y5) / 5 -
      A * ((X1 + X2 + X3 + X4 + X5) / 5)))) +
    X5 * (Y5 - (A * X5 + ((Y1 + Y2 + Y3 + Y4 + Y5) / 5 -
      A * ((X1 + X2 + X3 + X4 + X5) / 5)))) =
    ((X1 - (X1 + X2 + X3 + X4 + X5) / 5) * (Y1 - (Y1 + Y2 + Y3 + Y4 + Y5) / 5) +
     (X2 - (X1 + X2 + X3 + X4 + X5) / 5) * (Y2 - (Y1 + Y2 + Y3 + Y4 + Y5) / 5) +
     (X3 - (X1 + X2 + X3 + X4 + X5) / 5) * (Y3 - (Y1 + Y2 + Y3 + Y4 + Y5) / 5) +
     (X4 - (X1 + X2 + X3 + X4 + X5) / 5) * (Y4 - (Y1 + Y2 + Y3 + Y4 + Y5) / 5) +
     (X5 - (X1 + X2 + X3 + X4 + X5) / 5) * (Y5 - (Y1 + Y2 + Y3 + Y4 + Y5) / 5)) -
    A * ((X1 - (X1 + X2 + X3 + X4 + X5) / 5) ^ 2 +
         (X2 - (X1 + X2 + X3 + X4 + X5) / 5) ^ 2 +
         (X3 - (X1 + X2 + X3 + X4 + X5) / 5) ^ 2 +
         (X4 - (X1 + X2 + X3 + X4 + X5) / 5) ^ 2 +
         (X5 - (X1 + X2 + X3 + X4 + X5) / 5) ^ 2) := by
  ring

/-- Division followed by multiplication cancels against a nonzero
denominator. -/
lemma sub_div_mul_self (S Q : ℚ) (hQ : Q ≠ 0) : S - S / Q * Q = 0 := by
  field_simp

/-- A pair satisfying both normal equations minimizes the residual sum of
squares over five data points. -/
lemma rss_min_of_normal (X1 X2 X3 X4 X5 Y1 Y2 Y3 Y4 Y5 a b a2 b2 : ℚ)
    (h1 : (Y1 - (a * X1 + b)) + (Y2 - (a * X2 + b)) + (Y3 - (a * X3 + b)) +
          (Y4 - (a * X4 + b)) + (Y5 - (a * X5 + b)) = 0)
    (h2 : X1 * (Y1 - (a * X1 + b)) + X2 * (Y2 - (a * X2 + b)) +
          X3 * (Y3 - (a * X3 + b)) + X4 * (Y4 - (a * X4 + b)) +
          X5 * (Y5 - (a * X5 + b)) = 0) :
    (Y1 - (a * X1 + b)) ^ 2 + (Y2 - (a * X2 + b)) ^ 2 +
    (Y3 - (a * X3 + b)) ^ 2 + (Y4 - (a * X4 + b)) ^ 2 +
    (Y5 - (a * X5 + b)) ^ 2 ≤
    (Y1 - (a2 * X1 + b2)) ^ 2 + (Y2 - (a2 * X2 + b2)) ^ 2 +
    (Y3 - (a2 * X3 + b2)) ^ 2 + (Y4 - (a2 * X4 + b2)) ^ 2 +
    (Y5 - (a2 * X5 + b2)) ^ 2 := by
  have key :
      (Y1 - (a2 * X1 + b2)) ^ 2 + (Y2 - (a2 * X2 + b2)) ^ 2 +
      (Y3 - (a2 * X3 + b2)) ^ 2 + (Y4 - (a2 * X4 + b2)) ^ 2 +
      (Y5 - (a2 * X5 + b2)) ^ 2 =
      ((Y1 - (a * X1 + b)) ^ 2 + (Y2 - (a * X2 + b)) ^ 2 +
       (Y3 - (a * X3 + b)) ^ 2 + (Y4 - (a * X4 + b)) ^ 2 +
       (Y5 - (a * X5 + b)) ^ 2) +
      (((a - a2) * X1 + (b - b2)) ^ 2 + ((a - a2) * X2 + (b - b2)) ^ 2 +
       ((a - a2) * X3 + (b - b2)) ^ 2 + ((a - a2) * X4 + (b - b2)) ^ 2 +
       ((a - a2) * X5 + (b - b2)) ^ 2) := by
    linear_combination (2 * (a - a2)) * h2 + (2 * (b - b2)) * h1
  rw [key]
  have n1 := sq_nonneg ((a - a2) * X1 + (b - b2))
  have n2 := sq_nonneg ((a - a2) * X2 + (b - b2))
  have n3 := sq_nonneg ((a - a2) * X3 + (b - b2))
  have n4 := sq_nonneg ((a - a2) * X4 + (b - b2))
  have n5 := sq_nonneg ((a - a2) * X5 + (b - b2))
  linarith

/-- If not all five x values coincide, the sum of squared deviations from
their mean is nonzero. -/
lemma sum_sq_dev_ne_zero (x1 x2 x3 x4 x5 : ℚ)
    (hx : ¬(x2 = x1 ∧ x3 = x1 ∧ x4 = x1 ∧ x5 = x1)) :
    (x1 - (x1 + x2 + x3 + x4 + x5) / 5) ^ 2 +
    (x2 - (x1 + x2 + x3 + x4 + x5) / 5) ^ 2 +
    (x3 - (x1 + x2 + x3 + x4 + x5) / 5) ^ 2 +
    (x4 - (x1 + x2 + x3 + x4 + x5) / 5) ^ 2 +
    (x5 - (x1 + x2 + x3 + x4 + x5) / 5) ^ 2 ≠ 0 := by
  intro h0
  apply hx
  set m := (x1 + x2 + x3 + x4 + x5) / 5 with hm
  have q1 := sq_nonneg (x1 - m)
  have q2 := sq_nonneg (x2 - m)
  have q3 := sq_nonneg (x3 - m)
  have q4 := sq_nonneg (x4 - m)
  have q5 := sq_nonneg (x5 - m)
  have e1 : x1 = m := by nlinarith [h0]
  have e2 : x2 = m := by nlinarith [h0]
  have e3 : x3 = m := by nlinarith [h0]
  have e4 : x4 = m := by nlinarith [h0]
  have e5 : x5 = m := by nlinarith [h0]
  exact ⟨e2.trans e1.symm, e3.trans e1.symm, e4.trans e1.symm, e5.trans e1.symm⟩

/-- The closed form of `linregress` on two five-element lists. -/
lemma linregress_five (a1 a2 a3 a4 a5 b1 b2 b3 b4 b5 : ℚ) :
    linregress [a1, a2, a3, a4, a5] [b1, b2, b3, b4, b5] =
      (((a1 - (a1 + a2 + a3 + a4 + a5) / 5) * (b1 - (b1 + b2 + b3 + b4 + b5) / 5) +
        (a2 - (a1 + a2 + a3 + a4 + a5) / 5) * (b2 - (b1 + b2 + b3 + b4 + b5) / 5) +
        (a3 - (a1 + a2 + a3 + a4 + a5) / 5) * (b3 - (b1 + b2 + b3 + b4 + b5) / 5) +
        (a4 - (a1 + a2 + a3 + a4 + a5) / 5) * (b4 - (b1 + b2 + b3 + b4 + b5) / 5) +
        (a5 - (a1 + a2 + a3 + a4 + a5) / 5) * (b5 - (b1 + b2 + b3 + b4 + b5) / 5)) /
       ((a1 - (a1 + a2 + a3 + a4 + a5) / 5) ^ 2 +
        (a2 - (a1 + a2 + a3 + a4 + a5) / 5) ^ 2 +
        (a3 - (a1 + a2 + a3 + a4 + a5) / 5) ^ 2 +
        (a4 - (a1 + a2 + a3 + a4 + a5) / 5) ^ 2 +
        (a5 - (a1 + a2 + a3 + a4 + a5) / 5) ^ 2),
       (b1 + b2 + b3 + b4 + b5) / 5 -
        (((a1 - (a1 + a2 + a3 + a4 + a5) / 5) * (b1 - (b1 + b2 + b3 + b4 + b5) / 5) +
          (a2 - (a1 + a2 + a3 + a4 + a5) / 5) * (b2 - (b1 + b2 + b3 + b4 + b5) / 5) +
          (a3 - (a1 + a2 + a3 + a4 + a5) / 5) * (b3 - (b1 + b2 + b3 + b4 + b5) / 5) +
          (a4 - (a1 + a2 + a3 + a4 + a5) / 5) * (b4 - (b1 + b2 + b3 + b4 + b5) / 5) +
          (a5 - (a1 + a2 + a3 + a4 + a5) / 5) * (b5 - (b1 + b2 + b3 + b4 + b5) / 5)) /
         ((a1 - (a1 + a2 + a3 + a4 + a5) / 5) ^ 2 +
          (a2 - (a1 + a2 + a3 + a4 + a5) / 5) ^ 2 +
          (a3 - (a1 + a2 + a3 + a4 + a5) / 5) ^ 2 +
          (a4 - (a1 + a2 + a3 + a4 + a5) / 5) ^ 2 +
          (a5 - (a1 + a2 + a3 + a4 + a5) / 5) ^ 2)) *
        ((a1 + a2 + a3 + a4 + a5) / 5)) := by
  simp only [linregress, List.zip_cons_cons, List.zip_nil_right, List.map_cons,
    List.map_nil, List.sum_cons, List.sum_nil, List.length_cons, List.length_nil]
  norm_num
  constructor <;> ring_nf

/-- C1: for every 5-element list of H2O densities, K2HPO4 densities, and
measured HU means with at least two distinct K2HPO4 values,
`phantomParameters` computes `y_i = HU_i - H2O_i`, fits `y = a * x + b` by
ordinary least squares against `x_i = K2HPO4_i`, applies the fixed offsets
`sigma_ct = a - 0.2174` and `beta_ct = b + 999.6`, returns
`calibration_slope = 1 / sigma_ct` and
`calibration_intercept = -(beta_ct / sigma_ct)`, and exposes all
intermediate values (Y/X values, regression slope and intercept, Sigma_CT,
Beta_CT) alongside the final coefficients in the returned record. -/
theorem phantomParameters_ols_fit
    (w1 w2 w3 w4 w5 x1 x2 x3 x4 x5 u1 u2 u3 u4 u5 : ℚ)
    (hx : ¬(x2 = x1 ∧ x3 = x1 ∧ x4 = x1 ∧ x5 = x1)) :
    (phantomParameters [w1, w2, w3, w4, w5] [x1, x2, x3, x4, x5]
        [u1, u2, u3, u4, u5]).yValues =
      [u1 - w1, u2 - w2, u3 - w3, u4 - w4, u5 - w5] ∧
    (phantomParameters [w1, w2, w3, w4, w5] [x1, x2, x3, x4, x5]
        [u1, u2, u3, u4, u5]).xValues = [x1, x2, x3, x4, x5] ∧
    IsOLSFit [x1, x2, x3, x4, x5] [u1 - w1, u2 - w2, u3 - w3, u4 - w4, u5 - w5]
      (phantomParameters [w1, w2, w3, w4, w5] [x1, x2, x3, x4, x5]
        [u1, u2, u3, u4, u5]).regressionSlope
      (phantomParameters [w1, w2, w3, w4, w5] [x1, x2, x3, x4, x5]
        [u1, u2, u3, u4, u5]).regressionYint ∧
    (phantomParameters [w1, w2, w3, w4, w5] [x1, x2, x3, x4, x5]
        [u1, u2, u3, u4, u5]).sigmaCT =
      (phantomParameters [w1, w2, w3, w4, w5] [x1, x2, x3, x4, x5]
        [u1, u2, u3, u4, u5]).regressionSlope - 0.2174 ∧
    (phantomParameters [w1, w2, w3, w4, w5] [x1, x2, x3, x4, x5]
        [u1, u2, u3, u4, u5]).betaCT =
      (phantomParameters [w1, w2, w3, w4, w5] [x1, x2, x3, x4, x5]
        [u1, u2, u3, u4, u5]).regressionYint + 999.6 ∧
    (phantomParameters [w1, w2, w3, w4, w5] [x1, x2, x3, x4, x5]
        [u1, u2, u3, u4, u5]).calibrationSlope =
      1 / (phantomParameters [w1, w2, w3, w4, w5] [x1, x2, x3, x4, x5]
        [u1, u2, u3, u4, u5]).sigmaCT ∧
    (phantomParameters [w1, w2, w3, w4, w5] [x1, x2, x3, x4, x5]
        [u1, u2, u3, u4, u5]).calibrationYint =
      -((phantomParameters [w1, w2, w3, w4, w5] [x1, x2, x3, x4, x5]
          [u1, u2, u3, u4, u5]).betaCT /
        (phantomParameters [w1, w2, w3, w4, w5] [x1, x2, x3, x4, x5]
          [u1, u2, u3, u4, u5]).sigmaCT) := by
  have hsxx := sum_sq_dev_ne_zero x1 x2 x3 x4 x5 hx
  set F := phantomParameters [w1, w2, w3, w4, w5] [x1, x2, x3, x4, x5]
    [u1, u2, u3, u4, u5] with hF
  have hA : F.regressionSlope =
      (linregress [x1, x2, x3, x4, x5]
        [u1 - w1, u2 - w2, u3 - w3, u4 - w4, u5 - w5]).1 := by
    rw [hF]
    simp [phantomParameters]
  have hB : F.regressionYint =
      (linregress [x1, x2, x3, x4, x5]
        [u1 - w1, u2 - w2, u3 - w3, u4 - w4, u5 - w5]).2 := by
    rw [hF]
    simp [phantomParameters]
  rw [linregress_five] at hA hB
  dsimp only at hA hB
  rw [← hA] at hB
  have h1 : ((u1 - w1) - (F.regressionSlope * x1 + F.regressionYint)) +
      ((u2 - w2) - (F.regressionSlope * x2 + F.regressionYint)) +
      ((u3 - w3) - (F.regressionSlope * x3 + F.regressionYint)) +
      ((u4 - w4) - (F.regressionSlope * x4 + F.regressionYint)) +
      ((u5 - w5) - (F.regressionSlope * x5 + F.regressionYint)) = 0 := by
    rw [hB]
    exact normal_eq_one x1 x2 x3 x4 x5 (u1 - w1) (u2 - w2) (u3 - w3) (u4 - w4)
      (u5 - w5) F.regressionSlope
  have h2 : x1 * ((u1 - w1) - (F.regressionSlope * x1 + F.regressionYint)) +
      x2 * ((u2 - w2) - (F.regressionSlope * x2 + F.regressionYint)) +
      x3 * ((u3 - w3) - (F.regressionSlope * x3 + F.regressionYint)) +
      x4 * ((u4 - w4) - (F.regressionSlope * x4 + F.regressionYint)) +
      x5 * ((u5 - w5) - (F.regressionSlope * x5 + F.regressionYint)) = 0 := by
    rw [hB]
    rw [normal_eq_two x1 x2 x3 x4 x5 (u1 - w1) (u2 - w2) (u3 - w3) (u4 - w4)
      (u5 - w5) F.regressionSlope]
    rw [hA]
    exact sub_div_mul_self _ _ hsxx
  refine ⟨by rw [hF]; simp [phantomParameters], by rw [hF]; simp [phantomParameters],
    ?_, by rw [hF]; simp [phantomParameters], by rw [hF]; simp [phantomParameters],
    by rw [hF]; simp [phantomParameters], by rw [hF]; simp [phantomParameters]⟩
  unfold IsOLSFit
  intro a2 b2
  simp only [List.zip_cons_cons, List.zip_nil_right, List.map_cons, List.map_nil,
    List.sum_cons, List.sum_nil, add_zero]
  have hmin := rss_min_of_normal x1 x2 x3 x4 x5 (u1 - w1) (u2 - w2) (u3 - w3)
    (u4 - w4) (u5 - w5) F.regressionSlope F.regressionYint a2 b2 h1 h2
  linarith

/-- Witness for C1 at H2O densities all 0, K2HPO4 densities 0..4 and HU
means 0..4. -/
theorem phantomParameters_ols_fit_witness :
    (¬((1 : ℚ) = 0 ∧ (2 : ℚ) = 0 ∧ (3 : ℚ) = 0 ∧ (4 : ℚ) = 0)) ∧
    ((phantomParameters [0, 0, 0, 0, 0] [0, 1, 2, 3, 4]
        [0, 1, 2, 3, 4]).yValues =
      [0 - 0, 1 - 0, 2 - 0, 3 - 0, 4 - 0] ∧
    (phantomParameters [0, 0, 0, 0, 0] [0, 1, 2, 3, 4]
        [0, 1, 2, 3, 4]).xValues = [0, 1, 2, 3, 4] ∧
    IsOLSFit [0, 1, 2, 3, 4] [0 - 0, 1 - 0, 2 - 0, 3 - 0, 4 - 0]
      (phantomParameters [0, 0, 0, 0, 0] [0, 1, 2, 3, 4]
        [0, 1, 2, 3, 4]).regressionSlope
      (phantomParameters [0, 0, 0, 0, 0] [0, 1, 2, 3, 4]
        [0, 1, 2, 3, 4]).regressionYint ∧
    (phantomParameters [0, 0, 0, 0, 0] [0, 1, 2, 3, 4]
        [0, 1, 2, 3, 4]).sigmaCT =
      (phantomParameters [0, 0, 0, 0, 0] [0, 1, 2, 3, 4]
        [0, 1, 2, 3, 4]).regressionSlope - 0.2174 ∧
    (phantomParameters [0, 0, 0, 0, 0] [0, 1, 2, 3, 4]
        [0, 1, 2, 3, 4]).betaCT =
      (phantomParameters [0, 0, 0, 0, 0] [0, 1, 2, 3, 4]
        [0, 1, 2, 3, 4]).regressionYint + 999.6 ∧
    (phantomParameters [0, 0, 0, 0, 0] [0, 1, 2, 3, 4]
        [0, 1, 2, 3, 4]).calibrationSlope =
      1 / (phantomParameters [0, 0, 0, 0, 0] [0, 1, 2, 3, 4]
        [0, 1, 2, 3, 4]).sigmaCT ∧
    (phantomParameters [0, 0, 0, 0, 0] [0, 1, 2, 3, 4]
        [0, 1, 2, 3, 4]).calibrationYint =
      -((phantomParameters [0, 0, 0, 0, 0] [0, 1, 2, 3, 4]
          [0, 1, 2, 3, 4]).betaCT /
        (phantomParameters [0, 0, 0, 0, 0] [0, 1, 2, 3, 4]
          [0, 1, 2, 3, 4]).sigmaCT)) :=
  ⟨by norm_num,
   phantomParameters_ols_fit 0 0 0 0 0 0 1 2 3 4 0 1 2 3 4 (by norm_num)⟩

/-- C2: the code does not raise on a degenerate fit.  At an input whose
regression slope is exactly 0.2174, the corrected slope `sigma_ct` is zero,
yet `phantomParameters` still returns a record instead of failing: in the
Python implementation the subsequent `1 / sigma_ct` on a numpy float64
silently produces infinity rather than raising a DegenerateFit error. -/
theorem phantomParameters_degenerate_no_error :
    (phantomParameters [0, 0, 0, 0, 0] [0, 1, 2, 3, 4]
        [0, 0.2174, 0.4348, 0.6522, 0.8696]).sigmaCT = 0 ∧
    (phantomParameters [0, 0, 0, 0, 0] [0, 1, 2, 3, 4]
        [0, 0.2174, 0.4348, 0.6522, 0.8696]).regressionSlope = 0.2174 := by
  constructor <;>
    norm_num [phantomParameters, linregress, List.zip, List.zipWith]

/-- C3: for every calibration fit with nonzero calibration slope, mapping
every calibrated voxel through the inverse `(v - intercept) / slope`
recovers the original voxel values exactly (exact arithmetic model of the
floating-point computation). -/
theorem applyPhantomParameters_roundtrip (p : CalibrationFit)
    (hp : p.calibrationSlope ≠ 0) (img : Image) :
    ((applyPhantomParameters img p).data.map
      (fun v => (v - p.calibrationYint) / p.calibrationSlope)) = img.data := by
  simp only [applyPhantomParameters, List.map_map]
  have h1 : List.map
      ((fun v => (v - p.calibrationYint) / p.calibrationSlope) ∘
        fun v => p.calibrationSlope * v + p.calibrationYint) img.data =
      List.map (fun v => v) img.data := by
    apply List.map_congr_left
    intro v _
    simp only [Function.comp]
    field_simp
  rw [h1, List.map_id']

/-- Witness for C3 on a three-voxel image with slope 2 and intercept 3. -/
theorem applyPhantomParameters_roundtrip_witness :
    sampleFit.calibrationSlope ≠ 0 ∧
    ((applyPhantomParameters ⟨(3, 1, 1), [5, -7, 11]⟩ sampleFit).data.map
      (fun v => (v - sampleFit.calibrationYint) / sampleFit.calibrationSlope)) =
      (⟨(3, 1, 1), [5, -7, 11]⟩ : Image).data :=
  ⟨by norm_num [sampleFit],
   applyPhantomParameters_roundtrip sampleFit (by norm_num [sampleFit]) _⟩

/-- C4: `applyPhantomParameters` maps each voxel value `v` independently to
`calibration_slope * v + calibration_intercept`, preserves the dimensions
and the voxel count, and applies no normalization or clamping: every output
voxel is exactly the affine image of the input voxel, whatever its sign or
magnitude. -/
theorem applyPhantomParameters_voxelwise_affine (img : Image)
    (p : CalibrationFit) :
    (applyPhantomParameters img p).dims = img.dims ∧
    (applyPhantomParameters img p).data.length = img.data.length ∧
    ∀ i : ℕ, (applyPhantomParameters img p).data[i]? =
      (img.data[i]?).map (fun v => p.calibrationSlope * v + p.calibrationYint) := by
  refine ⟨rfl, by simp [applyPhantomParameters], ?_⟩
  intro i
  simp [applyPhantomParameters, List.getElem?_map]

/-- C5: for every rod label, the rod-ROI extraction masks the subject image
so that voxels whose mask label equals the label keep their value and all
other voxels become 0, and the histogram mean is the mean over the nonzero
voxels of that masked image: the sum of the image values at voxels carrying
the label and holding a nonzero value, divided by their count.  The
pipeline produces one such scalar per rod label 1..5, in order. -/
theorem rod_roi_mean_extraction (img mask : Image) (L : ℚ) :
    (applyMask img (maskThreshold mask L)).data =
      (img.data.zip mask.data).map (fun p => if p.2 = L then p.1 else 0) ∧
    imageHistogramMean (applyMask img (maskThreshold mask L)) =
      (((img.data.zip mask.data).filter
          (fun p => p.2 = L ∧ p.1 ≠ 0)).map Prod.fst).sum /
      (((img.data.zip mask.data).filter
          (fun p => p.2 = L ∧ p.1 ≠ 0)).map Prod.fst).length ∧
    phantomHU img mask =
      [imageHistogramMean (applyMask img (maskThreshold mask 1)),
       imageHistogramMean (applyMask img (maskThreshold mask 2)),
       imageHistogramMean (applyMask img (maskThreshold mask 3)),
       imageHistogramMean (applyMask img (maskThreshold mask 4)),
       imageHistogramMean (applyMask img (maskThreshold mask 5))] := by
  refine ⟨applyMask_maskThreshold_data img mask L, ?_, phantomHU_eq img mask⟩
  simp only [imageHistogramMean, applyMask_maskThreshold_data img mask L,
    filter_mask_map]

/-- C6: `phantomParameters` is deterministic, and at the default H2O
densities `[1012.25, 1056.95, 1103.57, 1119.52, 923.20]`, K2HPO4 densities
`[-51.83, -53.40, 58.88, 157.05, 375.83]` and measured HU
`[-20, 10, 120, 300, 700]` it produces the exact regression slope
`5959849596/3189384163` (about 1.868652157) and intercept
`-63974521645187/63787683260` (about -1002.9290668), with the
corresponding corrected and final coefficients. -/
theorem phantomParameters_deterministic :
    (∀ h2o k2hpo4 hu : List ℚ,
      phantomParameters h2o k2hpo4 hu = phantomParameters h2o k2hpo4 hu) ∧
    phantomParameters
      [1012.25, 1056.95, 1103.57, 1119.52, 923.20]
      [-51.83, -53.40, 58.88, 157.05, 375.83]
      [-20, 10, 120, 300, 700] =
    { yValues := [-4129/4, -20939/20, -98357/100, -20488/25, -1116/5]
      xValues := [-51.83, -53.40, 58.88, 157.05, 375.83]
      regressionSlope := 5959849596/3189384163
      regressionYint := -63974521645187/63787683260
      sigmaCT := 26332387394819/15946920815000
      betaCT := -212353458491/63787683260
      calibrationSlope := 15946920815000/26332387394819
      calibrationYint := 53088364622750/26332387394819 } := by
  refine ⟨fun _ _ _ => rfl, ?_⟩
  simp only [phantomParameters, linregress, List.zip, List.zipWith, List.map,
    List.sum_cons, List.sum_nil, List.length]
  norm_num

/-- C7: applying the calibration to a uniform image whose every voxel equals
`c` yields an image whose every voxel equals
`calibration_slope * c + calibration_intercept`. -/
theorem applyPhantomParameters_uniform (img : Image) (p : CalibrationFit)
    (c : ℚ) (h : ∀ v ∈ img.data, v = c) :
    ∀ w ∈ (applyPhantomParameters img p).data,
      w = p.calibrationSlope * c + p.calibrationYint := by
  intro w hw
  simp only [applyPhantomParameters, List.mem_map] at hw
  obtain ⟨v, hv, rfl⟩ := hw
  rw [h v hv]

/-- Witness for C7 on a two-voxel image of constant value 5. -/
theorem applyPhantomParameters_uniform_witness :
    (∀ v ∈ (⟨(2, 1, 1), [5, 5]⟩ : Image).data, v = 5) ∧
    ∀ w ∈ (applyPhantomParameters ⟨(2, 1, 1), [5, 5]⟩ sampleFit).data,
      w = sampleFit.calibrationSlope * 5 + sampleFit.calibrationYint :=
  ⟨by norm_num, applyPhantomParameters_uniform _ sampleFit 5 (by norm_num)⟩

/-- C8: when the image input is neither a directory nor a file whose
extension is `.nii` or `.nifti`, the run fails with the diagnostic naming
the offending path and produces no calibration or output; likewise for the
mask input. -/
theorem runCalibration_unrecognized_format (imgIsDir maskIsDir : Bool)
    (imgPath imgExt maskPath maskExt : String) (imageData maskData : Image)
    (h2o k2hpo4 : List ℚ) :
    (imgIsDir = false → imgExt ≠ ".nii" → imgExt ≠ ".nifti" →
      runCalibration imgIsDir imgPath imgExt maskIsDir maskPath maskExt
          imageData maskData h2o k2hpo4 =
        .error ("ERROR: image format not recognized for " ++ imgPath)) ∧
    (maskIsDir = false → maskExt ≠ ".nii" → maskExt ≠ ".nifti" →
      runCalibration true imgPath imgExt maskIsDir maskPath maskExt
          imageData maskData h2o k2hpo4 =
        .error ("ERROR: image format not recognized for " ++ maskPath)) := by
  constructor
  · intro h1 h2 h3
    subst h1
    simp [runCalibration, classifyInput, h2, h3, Bind.bind, Except.bind]
  · intro h1 h2 h3
    subst h1
    simp [runCalibration, classifyInput, h2, h3, Bind.bind, Except.bind]

/-- Witness for C8 on a `.txt` image path. -/
theorem runCalibration_unrecognized_format_witness :
    (false = false) ∧ (".txt" : String) ≠ ".nii" ∧
    (".txt" : String) ≠ ".nifti" ∧
    runCalibration false ("phantom.txt") (".txt") false ("mask.txt") (".txt")
        ⟨(1, 1, 1), [0]⟩ ⟨(1, 1, 1), [0]⟩ [] [] =
      .error ("ERROR: image format not recognized for " ++ "phantom.txt") :=
  ⟨rfl, by decide, by decide,
   (runCalibration_unrecognized_format false false ("phantom.txt") (".txt")
      ("mask.txt") (".txt") ⟨(1, 1, 1), [0]⟩ ⟨(1, 1, 1), [0]⟩ [] []).1
     rfl (by decide) (by decide)⟩

/-- C9: the run requires exactly five H2O and five K2HPO4 density values:
any other count aborts the run before any calibration is computed, and on a
well-formed run the five density values correspond one-to-one, in order,
with the rod ROI labels 1..5: the i-th Y value of the fit is the mean of
rod label i minus the i-th H2O density, and the X values are the five
K2HPO4 densities in order. -/
theorem runScript_rod_count (imgIsDir maskIsDir : Bool)
    (imgPath imgExt maskPath maskExt : String) (imageData maskData : Image)
    (h2o k2hpo4 : List ℚ) (w1 w2 w3 w4 w5 x1 x2 x3 x4 x5 : ℚ) :
    (∀ xs : List ℚ, xs.length ≠ 5 →
      parseNargs5 xs = .error ("error: expected 5 arguments")) ∧
    (h2o.length ≠ 5 →
      runScript imgIsDir imgPath imgExt maskIsDir maskPath maskExt
          imageData maskData h2o k2hpo4 =
        .error ("error: expected 5 arguments")) ∧
    (h2o.length = 5 → k2hpo4.length ≠ 5 →
      runScript imgIsDir imgPath imgExt maskIsDir maskPath maskExt
          imageData maskData h2o k2hpo4 =
        .error ("error: expected 5 arguments")) ∧
    runScript true imgPath imgExt true maskPath maskExt imageData maskData
        [w1, w2, w3, w4, w5] [x1, x2, x3, x4, x5] =
      .ok (phantomParameters [w1, w2, w3, w4, w5] [x1, x2, x3, x4, x5]
             (phantomHU imageData maskData),
           applyPhantomParameters imageData
             (phantomParameters [w1, w2, w3, w4, w5] [x1, x2, x3, x4, x5]
               (phantomHU imageData maskData))) ∧
    (phantomParameters [w1, w2, w3, w4, w5] [x1, x2, x3, x4, x5]
        (phantomHU imageData maskData)).yValues =
      [imageHistogramMean (applyMask imageData (maskThreshold maskData 1)) - w1,
       imageHistogramMean (applyMask imageData (maskThreshold maskData 2)) - w2,
       imageHistogramMean (applyMask imageData (maskThreshold maskData 3)) - w3,
       imageHistogramMean (applyMask imageData (maskThreshold maskData 4)) - w4,
       imageHistogramMean (applyMask imageData (maskThreshold maskData 5)) - w5] ∧
    (phantomParameters [w1, w2, w3, w4, w5] [x1, x2, x3, x4, x5]
        (phantomHU imageData maskData)).xValues = [x1, x2, x3, x4, x5] := by
  refine ⟨?_, ?_, ?_, ?_, ?_, rfl⟩
  · intro xs hxs
    simp [parseNargs5, hxs]
  · intro hlen
    simp [runScript, parseNargs5, hlen, Bind.bind, Except.bind]
  · intro hlen5 hlen
    simp [runScript, parseNargs5, hlen5, hlen, Bind.bind, Except.bind]
  · simp [runScript, runCalibration, parseNargs5, classifyInput,
      Bind.bind, Except.bind]
  · simp [phantomParameters, phantomHU_eq]

/-- Witness for C9 with an empty H2O density list. -/
theorem runScript_rod_count_witness :
    (([] : List ℚ).length ≠ 5) ∧
    runScript true ("phantom") (".nii") true ("mask") (".nii")
        ⟨(1, 1, 1), [0]⟩ ⟨(1, 1, 1), [0]⟩ [] [0, 1, 2, 3, 4] =
      .error ("error: expected 5 arguments") :=
  ⟨by decide,
   (runScript_rod_count true true ("phantom") (".nii") ("mask") (".nii")
      ⟨(1, 1, 1), [0]⟩ ⟨(1, 1, 1), [0]⟩ [] [0, 1, 2, 3, 4]
      0 0 0 0 0 0 0 0 0 0).2.1 (by decide)⟩

/-- C10: for every mask image and label value, `maskThreshold` returns a
binary mask that is 1 exactly where the input voxel equals the label and 0
everywhere else (so each output voxel is 0 or 1, representable as unsigned
char), the dimensions are preserved, and applying it through `applyMask`
keeps the image values inside the rod region and zeroes all other voxels. -/
theorem maskThreshold_binary_mask (m : Image) (L : ℚ) (img : Image) :
    (maskThreshold m L).dims = m.dims ∧
    (maskThreshold m L).data = m.data.map (fun v => if v = L then 1 else 0) ∧
    (∀ w ∈ (maskThreshold m L).data, w = 0 ∨ w = 1) ∧
    (applyMask img (maskThreshold m L)).data =
      (img.data.zip m.data).map (fun p => if p.2 = L then p.1 else 0) := by
  refine ⟨rfl, ?_, ?_, applyMask_maskThreshold_data img m L⟩
  · simp only [maskThreshold]
    apply List.map_congr_left
    intro v _
    by_cases h : v = L
    · simp [h]
    · have hcond : ¬(L ≤ v ∧ v ≤ L) := fun hc => h (le_antisymm hc.2 hc.1)
      simp [h, hcond]
  · intro w hw
    simp only [maskThreshold, List.mem_map] at hw
    obtain ⟨v, _, rfl⟩ := hw
    by_cases h : L ≤ v ∧ v ≤ L
    · right; simp [h]
    · left; simp [h]

/-- Witness for C10 on a three-voxel mask with labels `[1, 2, 1]`. -/
theorem maskThreshold_binary_mask_witness :
    (maskThreshold ⟨(3, 1, 1), [1, 2, 1]⟩ 1).dims =
      (⟨(3, 1, 1), [1, 2, 1]⟩ : Image).dims ∧
    (maskThreshold ⟨(3, 1, 1), [1, 2, 1]⟩ 1).data =
      (⟨(3, 1, 1), [1, 2, 1]⟩ : Image).data.map
        (fun v => if v = 1 then 1 else 0) ∧
    (∀ w ∈ (maskThreshold ⟨(3, 1, 1), [1, 2, 1]⟩ 1).data, w = 0 ∨ w = 1) ∧
    (applyMask ⟨(3, 1, 1), [7, 8, 9]⟩ (maskThreshold ⟨(3, 1, 1), [1, 2, 1]⟩ 1)).data =
      ((⟨(3, 1, 1), [7, 8, 9]⟩ : Image).data.zip
        (⟨(3, 1, 1), [1, 2, 1]⟩ : Image).data).map
          (fun p => if p.2 = 1 then p.1 else 0) :=
  maskThreshold_binary_mask ⟨(3, 1, 1), [1, 2, 1]⟩ 1 ⟨(3, 1, 1), [7, 8, 9]⟩

end Ogo
